import Mathlib

/-!
Verification development for the authentication core of the hamsoya
e-commerce application (tRPC auth router, refresh-token ledger, OTP vault).

The definitions below are a shallow embedding of the TypeScript source:
  * `src/lib/crypto.ts`            — OTP generation
  * `src/utils/auth-utils.ts`      — refresh-token ledger helpers
  * `src/features/auth/server/router.ts` — the auth procedures
Machine integers are modelled as `Nat` (`readUint32BE` yields a value
below 2^32, made explicit as a hypothesis where it matters).  Timestamps
are `Nat` milliseconds since the epoch, matching `Date.now()`.
Fallible procedures return `Except TRPCError α` paired with the state
after the call.  External collaborators (bcrypt, SHA-256, randomness)
are passed in as function parameters; where a theorem needs injectivity
of a digest it is an explicit hypothesis.

The Redis-backed `RedisService` (`@/lib/redis`) is not part of the
supplied source; its operations are modelled from the spec (section 4.4,
"OTP Rate Limiter & Vault") and are marked as such in their doc comments.
-/

namespace Hamsoya

/-- From `src/lib/crypto.ts`: `generateOTP` reads a 32-bit big-endian
unsigned integer from 4 random bytes and maps it with
`(randomNumber % 900000) + 100000`.  The numeric value of the produced
OTP (the source then renders it with `toString`). -/
def generateOTP (randomNumber : Nat) : Nat :=
  randomNumber % 900000 + 100000

/-- From `src/utils/auth-utils.ts`: `REFRESH_TOKEN_EXPIRY = 30 * 24 * 60 * 60`,
commented in the source as "30 days in seconds". -/
def REFRESH_TOKEN_EXPIRY : Nat := 30 * 24 * 60 * 60

/-- One row of the `refresh_tokens` table (`src/db/schema.ts`):
user id, SHA-256 digest of the raw token, expiry timestamp, revoked flag
and family id.  Ids and digests are modelled as `Nat`; the schema gives
`family_id` a random default and `storeRefreshToken` always supplies one,
so it is modelled as always present. -/
structure RefreshTokenRow where
  userId : Nat
  tokenHash : Nat
  expiresAt : Nat
  isRevoked : Bool
  familyId : Nat
deriving Repr, DecidableEq

/-- From `src/utils/auth-utils.ts`: `storeRefreshToken(userId, token, familyId?)`
computes the digest, sets `expiresAt = new Date(Date.now() + REFRESH_TOKEN_EXPIRY)`
(note: the constant is in seconds while `Date.now()` is in milliseconds),
uses the supplied family id or a fresh random UUID, and inserts a row whose
`isRevoked` takes the schema default `false`.  `hashToken` is the SHA-256
digest passed as a parameter; `now` is the millisecond clock; `freshFamily`
is the `crypto.randomUUID()` value. -/
def storeRefreshToken (hashToken : Nat → Nat) (now : Nat)
    (userId token : Nat) (familyId : Option Nat) (freshFamily : Nat)
    (db : List RefreshTokenRow) : List RefreshTokenRow :=
  db ++ [{ userId := userId
           tokenHash := hashToken token
           expiresAt := now + REFRESH_TOKEN_EXPIRY
           isRevoked := false
           familyId := familyId.getD freshFamily }]

/-- From `src/utils/auth-utils.ts`: `revokeRefreshTokens(userId, familyId?)`
sets `isRevoked = true` on every row matching the user and, when a family id
is supplied, also matching that family; with no family id every row of the
user is revoked. -/
def revokeRefreshTokens (userId : Nat) (familyId : Option Nat)
    (db : List RefreshTokenRow) : List RefreshTokenRow :=
  match familyId with
  | some f =>
      db.map fun r =>
        if r.userId = userId ∧ r.familyId = f then { r with isRevoked := true } else r
  | none =>
      db.map fun r =>
        if r.userId = userId then { r with isRevoked := true } else r

/-- The refresh procedure's validity query
(`src/features/auth/server/router.ts`, `refreshToken`): select the first row
whose `tokenHash` equals the digest of the presented token, with
`isRevoked = false` and `expiresAt > now` (`limit 1`). -/
def lookupValid (hashToken : Nat → Nat) (now : Nat) (token : Nat)
    (db : List RefreshTokenRow) : Option RefreshTokenRow :=
  db.find? fun r =>
    r.tokenHash = hashToken token ∧ r.isRevoked = false ∧ now < r.expiresAt

/-- Registration payload staged in the vault
(`register` in `src/features/auth/server/router.ts`). -/
structure RegistrationData where
  name : String
  email : String
  password_hash : String
  role : String
  phone_number : Option String
  profile_image_url : Option String
deriving Repr, DecidableEq

/-- One row of the `users` table (`src/db/schema.ts`), restricted to the
fields the auth flows read or write; timestamp and OAuth columns are
elided. -/
structure UserRow where
  id : Nat
  name : String
  email : String
  password_hash : Option String
  role : String
  phone_number : Option String
  profile_image_url : Option String
  is_verified : Bool
deriving Repr, DecidableEq

/-- The OTP purpose discriminator: the `RedisService` methods take a
purpose string, `"otp"` (email verification, the default) or
`"password_reset"`. -/
inductive Purpose
  | otp
  | password_reset
deriving Repr, DecidableEq

/-- Modelled from the spec: the `RedisService` class (`@/lib/redis`) is not
among the supplied sources; section 4.4 of the spec describes it as a
counters/TTL store keyed by (identifier, purpose) holding the pending
registration payload, the issued OTP value, send and failure counters, a
cooldown timestamp and a lock state.  This structure is that state for one
identifier.  Distinct method families of the service
(`getOTPFailCount`/`incrementOTPFailCount`, `getOTPSendCount`/
`incrementOTPSendCount`, `getAttempts`/`incrementAttempts`) are modelled as
distinct counters; `getAttempts (email, "password_reset")` is one counter
shared by the reset resend and reset verification call sites, exactly as
the single method name is shared in the source.  TTL expiry is modelled by
the `Option` values being `none`. -/
structure VaultState where
  pending : Option RegistrationData
  otp : Option String
  otpFailCount : Nat
  otpSendCount : Nat
  otpAttempts : Nat
  otpCooldownUntil : Nat
  otpLockUntil : Option Nat
  resetOtp : Option String
  resetAttempts : Nat
  resetCooldownUntil : Nat
  resetLockUntil : Option Nat
  resetVerified : Bool
deriving Repr, DecidableEq

/-- Modelled from the spec: `cleanup(email, purpose)` "clears everything
for a key after terminal success or lock so stale counters don't leak into
the next cycle", purpose-scoped: it purges the stored OTP, the counters
and the cooldown for that purpose (and, for the reset purpose, the
verified flag, since `resetPassword` uses it to clear "all reset-purpose
vault state").  The lock timestamp is not purged: the router sets the lock
immediately before calling `cleanup`, and the pending registration payload
has its own `deleteRegistrationData` method. -/
def cleanup : Purpose → VaultState → VaultState
  | .otp, v =>
      { v with otp := none, otpFailCount := 0, otpSendCount := 0,
               otpAttempts := 0, otpCooldownUntil := 0 }
  | .password_reset, v =>
      { v with resetOtp := none, resetAttempts := 0,
               resetCooldownUntil := 0, resetVerified := false }

/-- The full server-side state an auth procedure can touch: the `users`
and `refresh_tokens` tables, the vault state for the subject identifier,
and a log of dispatched OTP notifications (recipient, OTP) standing in for
the external `NotificationSender` collaborator. -/
structure AuthState where
  users : List UserRow
  tokens : List RefreshTokenRow
  vault : VaultState
  sentEmails : List (String × String)
deriving Repr, DecidableEq

/-- A tRPC error as thrown by the router: an error code and a
human-readable message.  A plain `Error` thrown below the router (for
example by the rate-limit helpers) surfaces to the client as code
`INTERNAL_SERVER_ERROR` with its message. -/
structure TRPCError where
  code : String
  message : String
deriving Repr, DecidableEq

/-- From `src/utils/send-verification-otp.ts`: `checkOTPRateLimit(email)`
with the default purpose — throws when the cooldown is active; at 2 or
more recorded attempts sets a 1-hour lock and throws; throws when locked;
otherwise increments the attempts counter.  `now` is the millisecond
clock. -/
def checkOTPRateLimit (now : Nat) (s : AuthState) :
    Except TRPCError Unit × AuthState :=
  if now < s.vault.otpCooldownUntil then
    (.error ⟨"INTERNAL_SERVER_ERROR",
      "Please wait 60 seconds before requesting another OTP"⟩, s)
  else if 2 ≤ s.vault.otpAttempts then
    (.error ⟨"INTERNAL_SERVER_ERROR",
      "Too many OTP requests. Please try again in 1 hour."⟩,
     { s with vault.otpLockUntil := some (now + 60 * 60 * 1000) })
  else if (s.vault.otpLockUntil.map (fun l => decide (now < l))).getD false then
    (.error ⟨"INTERNAL_SERVER_ERROR",
      "Account is temporarily locked. Please try again later."⟩, s)
  else
    (.ok (), { s with vault.otpAttempts := s.vault.otpAttempts + 1 })

/-- From `src/utils/send-verification-otp.ts`: `sendVerificationOtp(email,
name?)` — requires a pending registration or an existing user, rejects an
already verified user, rate-limits, then stores a fresh OTP, starts the
60-second cooldown and dispatches the notification.  The random OTP value
is the parameter `otpGen`; email delivery by the external collaborator is
modelled as an append to the notification log. -/
def sendVerificationOtp (otpGen : String) (now : Nat) (email : String)
    (s : AuthState) : Except TRPCError String × AuthState :=
  let registrationData := s.vault.pending
  let user := s.users.find? fun u => u.email = email
  if registrationData.isNone ∧ user.isNone then
    (.error ⟨"INTERNAL_SERVER_ERROR",
      "No registration data or user found for this email"⟩, s)
  else if (user.map (fun u => u.is_verified)).getD false then
    (.error ⟨"INTERNAL_SERVER_ERROR", "User is already verified"⟩, s)
  else
    match checkOTPRateLimit now s with
    | (.error e, s1) => (.error e, s1)
    | (.ok _, s1) =>
        let s2 := { s1 with vault.otp := some otpGen,
                            vault.otpCooldownUntil := now + 60 * 1000,
                            sentEmails := s1.sentEmails ++ [(email, otpGen)] }
        (.ok "Verification OTP sent to your email", s2)

/-- From `src/features/auth/server/router.ts`: the `register` mutation —
rejects when a permanent user row with the email already exists, hashes
the password, stages the registration payload in the vault
(`setRegistrationData`) and sends the verification OTP.  It never writes
to the `users` table.  `hashPassword` is the bcrypt collaborator. -/
def register (hashPassword : String → String) (otpGen : String) (now : Nat)
    (name email password role : String)
    (phone_number profile_image_url : Option String)
    (s : AuthState) : Except TRPCError String × AuthState :=
  if s.users.any (fun u => u.email = email) then
    (.error ⟨"CONFLICT", "User already exists"⟩, s)
  else
    let registrationData : RegistrationData :=
      { name := name, email := email, password_hash := hashPassword password,
        role := role, phone_number := phone_number,
        profile_image_url := profile_image_url }
    let s1 := { s with vault.pending := some registrationData }
    match sendVerificationOtp otpGen now email s1 with
    | (.error e, s2) => (.error e, s2)
    | (.ok _, s2) =>
        (.ok "Registration initiated. Please check your email for verification OTP.",
         s2)

/-- From `src/features/auth/server/router.ts`: the `verifyOTP` mutation
(email-verification purpose).  Checks the failure counter, fetches the
stored OTP, on mismatch increments the counter and at the fifth failure
sets a 15-minute lock and purges the key; on match promotes the staged
registration (re-checking the duplicate email against the permanent
store) and clears all vault state for the key.  `freshId` is the database
default for the new row's id. -/
def verifyOTP (now freshId : Nat) (email otp : String) (s : AuthState) :
    Except TRPCError String × AuthState :=
  let failCount := s.vault.otpFailCount
  if 5 ≤ failCount then
    (.error ⟨"TOO_MANY_REQUESTS",
      "Too many incorrect attempts. Account locked for 15 minutes."⟩, s)
  else
    match s.vault.otp with
    | none =>
        (.error ⟨"NOT_FOUND",
          "OTP expired or not found. Please request a new one."⟩, s)
    | some storedOTP =>
        if otp ≠ storedOTP then
          let newFailCount := failCount + 1
          let s1 := { s with vault.otpFailCount := newFailCount }
          -- with the guard above, `failCount ≤ 4`, so the source's signed
          -- `5 - newFailCount` is never negative and `Nat` subtraction agrees
          let remainingAttempts := 5 - newFailCount
          if remainingAttempts = 0 then
            let s2 := { s1 with vault.otpLockUntil := some (now + 15 * 60 * 1000) }
            let s3 := { s2 with vault := cleanup .otp s2.vault }
            (.error ⟨"UNAUTHORIZED",
              "Too many incorrect attempts. Account locked for 15 minutes."⟩, s3)
          else
            (.error ⟨"UNAUTHORIZED",
              "Incorrect OTP. " ++ toString remainingAttempts ++ " attempts remaining."⟩,
             s1)
        else
          match s.vault.pending with
          | none =>
              (.error ⟨"NOT_FOUND",
                "Registration data expired. Please register again."⟩, s)
          | some registrationData =>
              if s.users.any (fun u => u.email = email) then
                (.error ⟨"CONFLICT", "User already exists"⟩, s)
              else
                let newUser : UserRow :=
                  { id := freshId, name := registrationData.name,
                    email := registrationData.email,
                    password_hash := some registrationData.password_hash,
                    role := registrationData.role,
                    phone_number := registrationData.phone_number,
                    profile_image_url := registrationData.profile_image_url,
                    is_verified := true }
                let s1 := { s with users := s.users ++ [newUser] }
                let s2 := { s1 with vault := cleanup .otp s1.vault }
                let s3 := { s2 with vault.pending := none }
                (.ok "Email verified successfully. Account created!", s3)

/-- From `src/features/auth/server/router.ts`: the `verifyForgetPasswordOTP`
mutation (password-reset purpose).  Requires the user to exist, checks the
reset attempts counter, fetches the stored reset OTP, on mismatch
increments the counter and at the fifth failure sets a 15-minute lock and
purges the key; on match it only sets the reset-verified flag — it does
not clear the stored OTP. -/
def verifyForgetPasswordOTP (now : Nat) (email otp : String) (s : AuthState) :
    Except TRPCError String × AuthState :=
  match s.users.find? (fun u => u.email = email) with
  | none => (.error ⟨"NOT_FOUND", "No user found with this email"⟩, s)
  | some _ =>
      let failCount := s.vault.resetAttempts
      if 5 ≤ failCount then
        (.error ⟨"TOO_MANY_REQUESTS",
          "Too many incorrect attempts. Account locked for 15 minutes."⟩, s)
      else
        match s.vault.resetOtp with
        | none =>
            (.error ⟨"NOT_FOUND",
              "OTP expired or not found. Please request a new one."⟩, s)
        | some storedOTP =>
            if otp ≠ storedOTP then
              let newFailCount := failCount + 1
              let s1 := { s with vault.resetAttempts := newFailCount }
              let remainingAttempts := 5 - newFailCount
              if remainingAttempts = 0 then
                let s2 :=
                  { s1 with vault.resetLockUntil := some (now + 15 * 60 * 1000) }
                let s3 := { s2 with vault := cleanup .password_reset s2.vault }
                (.error ⟨"UNAUTHORIZED",
                  "Too many incorrect attempts. Account locked for 15 minutes."⟩, s3)
              else
                (.error ⟨"UNAUTHORIZED",
                  "Incorrect OTP. " ++ toString remainingAttempts ++ " attempts remaining."⟩,
                 s1)
            else
              (.ok "Password reset OTP verified successfully",
               { s with vault.resetVerified := true })

/-- From `src/utils/send-password-reset-otp.ts`:
`checkPasswordResetRateLimit(email)` — throws when the reset cooldown is
active; at 2 or more recorded attempts sets a 1-hour lock and throws;
throws when locked; otherwise increments the attempts counter. -/
def checkPasswordResetRateLimit (now : Nat) (s : AuthState) :
    Except TRPCError Unit × AuthState :=
  if now < s.vault.resetCooldownUntil then
    (.error ⟨"INTERNAL_SERVER_ERROR",
      "Please wait 60 seconds before requesting another OTP"⟩, s)
  else if 2 ≤ s.vault.resetAttempts then
    (.error ⟨"INTERNAL_SERVER_ERROR",
      "Too many OTP requests. Please try again in 1 hour."⟩,
     { s with vault.resetLockUntil := some (now + 60 * 60 * 1000) })
  else if (s.vault.resetLockUntil.map (fun l => decide (now < l))).getD false then
    (.error ⟨"INTERNAL_SERVER_ERROR",
      "Account is temporarily locked. Please try again later."⟩, s)
  else
    (.ok (), { s with vault.resetAttempts := s.vault.resetAttempts + 1 })

/-- From `src/utils/send-password-reset-otp.ts`: `sendPasswordResetOtp(email,
name?)` — requires the user to exist, rate-limits, stores a fresh reset
OTP, starts the 60-second cooldown and dispatches the notification.  The
random OTP value is the parameter `otpGen`; delivery is modelled as an
append to the notification log. -/
def sendPasswordResetOtp (otpGen : String) (now : Nat) (email : String)
    (s : AuthState) : Except TRPCError String × AuthState :=
  match s.users.find? (fun u => u.email = email) with
  | none => (.error ⟨"INTERNAL_SERVER_ERROR", "No user found for this email"⟩, s)
  | some _ =>
      match checkPasswordResetRateLimit now s with
      | (.error e, s1) => (.error e, s1)
      | (.ok _, s1) =>
          let s2 := { s1 with vault.resetOtp := some otpGen,
                              vault.resetCooldownUntil := now + 60 * 1000,
                              sentEmails := s1.sentEmails ++ [(email, otpGen)] }
          (.ok "Password reset OTP sent to your email", s2)

/-- From `src/features/auth/server/router.ts`: the `forgotPassword`
mutation — when no user with the email exists it returns the generic
acknowledgement untouched; when one exists it calls
`sendPasswordResetOtp` (whose thrown errors propagate to the caller) and
then returns the same generic acknowledgement. -/
def forgotPassword (otpGen : String) (now : Nat) (email : String)
    (s : AuthState) : Except TRPCError String × AuthState :=
  match s.users.find? (fun u => u.email = email) with
  | none =>
      (.ok "If an account with that email exists, a reset link has been sent.", s)
  | some _user =>
      match sendPasswordResetOtp otpGen now email s with
      | (.error e, s1) => (.error e, s1)
      | (.ok _, s1) =>
          (.ok "If an account with that email exists, a reset link has been sent.",
           s1)

/-- From `src/features/auth/server/router.ts`: the `resetPassword`
mutation — requires the reset-verified flag, requires the user to exist,
rewrites the password hash (`updatePassword`), revokes every refresh-token
row of the user across all families (`revokeRefreshTokens` with no family
id) and clears the reset-purpose vault state (`cleanup`). -/
def resetPassword (hashPassword : String → String) (email newPassword : String)
    (s : AuthState) : Except TRPCError String × AuthState :=
  if s.vault.resetVerified = false then
    (.error ⟨"UNAUTHORIZED",
      "Password reset not verified. Please verify the OTP first."⟩, s)
  else
    match s.users.find? (fun u => u.email = email) with
    | none => (.error ⟨"NOT_FOUND", "User not found"⟩, s)
    | some user =>
        let users1 := s.users.map fun u =>
          if u.id = user.id then { u with password_hash := some (hashPassword newPassword) }
          else u
        let tokens1 := revokeRefreshTokens user.id none s.tokens
        (.ok "Password reset successfully",
         { s with users := users1, tokens := tokens1,
                  vault := cleanup .password_reset s.vault })

/-- From `src/features/auth/server/router.ts`: the `refreshToken`
mutation — with no `refreshToken` cookie it throws the unauthorized
"No refresh token" error; on a validity-query miss it throws the
unauthorized "Invalid refresh token" error; when the row's user is gone it
throws the unauthorized "User not found" error; otherwise it revokes the
whole family and stores the fresh token under the same family id.
`cookie` is the raw token parsed from the request cookie header;
`newToken` is the fresh random refresh token.  The success payload
(new access token and user profile) is represented by the user id. -/
def refreshToken (hashToken : Nat → Nat) (now : Nat)
    (cookie : Option Nat) (newToken : Nat) (s : AuthState) :
    Except TRPCError Nat × AuthState :=
  match cookie with
  | none => (.error ⟨"UNAUTHORIZED", "No refresh token"⟩, s)
  | some presented =>
      match lookupValid hashToken now presented s.tokens with
      | none => (.error ⟨"UNAUTHORIZED", "Invalid refresh token"⟩, s)
      | some tokenRecord =>
          match s.users.find? (fun u => u.id = tokenRecord.userId) with
          | none => (.error ⟨"UNAUTHORIZED", "User not found"⟩, s)
          | some _user =>
              let tokens1 :=
                revokeRefreshTokens tokenRecord.userId (some tokenRecord.familyId)
                  s.tokens
              let tokens2 :=
                storeRefreshToken hashToken now tokenRecord.userId newToken
                  (some tokenRecord.familyId) tokenRecord.familyId tokens1
              (.ok tokenRecord.userId, { s with tokens := tokens2 })

/-- From `src/features/auth/server/router.ts`: the `logout` mutation —
resolves the presented cookie token to its first matching ledger row (no
revoked/expiry filter), revokes that row's whole family when found, and in
every case clears the cookie (`Max-Age=0`, the boolean in the result) and
returns the success acknowledgement. -/
def logout (hashToken : Nat → Nat) (cookie : Option Nat) (s : AuthState) :
    (String × Bool) × AuthState :=
  match cookie with
  | none => (("Logged out successfully", true), s)
  | some presented =>
      match s.tokens.find? (fun r => r.tokenHash = hashToken presented) with
      | none => (("Logged out successfully", true), s)
      | some r =>
          (("Logged out successfully", true),
           { s with tokens := revokeRefreshTokens r.userId (some r.familyId) s.tokens })

/-! Theorems for the frozen claims follow. -/

/-- C4: evaluation of `storeRefreshToken` at a concrete call (digest
modelled as the identity, clock at 0, user 7, token 42, no family
supplied, fresh family 99, empty table): the inserted row's expiry is
`0 + 2592000`, i.e. 2592000 milliseconds (43.2 minutes) after insertion,
whereas 30 days is 2592000000 milliseconds — the seconds-denominated
constant is added to a millisecond clock. -/
theorem storeRefreshToken_expiry_eval :
    storeRefreshToken (fun t => t) 0 7 42 none 99 [] =
      [{ userId := 7, tokenHash := 42, expiresAt := 2592000,
         isRevoked := false, familyId := 99 }] ∧
    (2592000 : Nat) ≠ 30 * 24 * 60 * 60 * 1000 := by
  exact ⟨rfl, by decide⟩

/-- Auxiliary: for `r < d`, `d` divides `N + d - r` exactly when
`N % d = r`. -/
lemma dvd_sub_iff_mod_eq (d r N : Nat) (hr : r < d) :
    d ∣ (N + d - r) ↔ N % d = r := by
  have h1 : r ≤ N + d := by omega
  rw [← Nat.modEq_iff_dvd' h1]
  unfold Nat.ModEq
  rw [Nat.add_mod_right, Nat.mod_eq_of_lt hr]
  exact eq_comm

/-- Auxiliary: the number of naturals below `N` in the residue class
`r` modulo `d` is `(N + (d - 1) - r) / d`. -/
lemma card_filter_range_mod (d r : Nat) (hd : 0 < d) (hr : r < d) (N : Nat) :
    ((Finset.range N).filter (fun n => n % d = r)).card
      = (N + (d - 1) - r) / d := by
  induction N with
  | zero =>
      rw [Finset.range_zero, Finset.filter_empty, Finset.card_empty,
          Nat.div_eq_of_lt (by omega)]
  | succ N ih =>
      have hstep : (N + 1 + (d - 1) - r) / d
          = (N + (d - 1) - r) / d + if d ∣ (N + d - r) then 1 else 0 := by
        have hx : N + 1 + (d - 1) - r = (N + (d - 1) - r) + 1 := by omega
        have hy : N + (d - 1) - r + 1 = N + d - r := by omega
        rw [hx, Nat.succ_div, hy]
      rw [Finset.range_succ, Finset.filter_insert, hstep]
      by_cases h : N % d = r
      · rw [if_pos h, Finset.card_insert_of_not_mem (by simp),
            if_pos ((dvd_sub_iff_mod_eq d r N hr).2 h), ih]
      · rw [if_neg h, if_neg (fun hdvd => h ((dvd_sub_iff_mod_eq d r N hr).1 hdvd)),
            ih, Nat.add_zero]

/-- Auxiliary: exact preimage count of each OTP value under `generateOTP`
over the full 32-bit input range. -/
lemma card_generateOTP_preimage (v : Nat) (h1 : 100000 ≤ v) (h2 : v ≤ 999999) :
    ((Finset.range (2 ^ 32)).filter (fun n => generateOTP n = v)).card
      = (2 ^ 32 + 899999 - (v - 100000)) / 900000 := by
  have hcong : (Finset.range (2 ^ 32)).filter (fun n => generateOTP n = v)
      = (Finset.range (2 ^ 32)).filter (fun n => n % 900000 = v - 100000) := by
    apply Finset.filter_congr
    intro n _
    unfold generateOTP
    omega
  rw [hcong, card_filter_range_mod 900000 (v - 100000) (by norm_num) (by omega)]

/-- The claim's uniformity property, stated from the spec's words: over
the uniformly distributed 32-bit random source, every OTP value in
[100000, 999999] has the same number of preimages. -/
def generateOTPUniform : Prop :=
  ∀ v w : Nat, 100000 ≤ v → v ≤ 999999 → 100000 ≤ w → w ≤ 999999 →
    ((Finset.range (2 ^ 32)).filter (fun n => generateOTP n = v)).card
      = ((Finset.range (2 ^ 32)).filter (fun n => generateOTP n = w)).card

/-- C10, counterexample: the OTP value 100000 has 4773 preimages under
`generateOTP` while 999999 has 4772 (2^32 is not a multiple of 900000 and
the source applies a plain modulo with no rejection), so the distribution
over the 900000 possible values is not uniform. -/
theorem generateOTP_not_uniform_cex :
    ((Finset.range (2 ^ 32)).filter (fun n => generateOTP n = 100000)).card = 4773 ∧
    ((Finset.range (2 ^ 32)).filter (fun n => generateOTP n = 999999)).card = 4772 ∧
    ¬ generateOTPUniform := by
  have h100 :
      ((Finset.range (2 ^ 32)).filter (fun n => generateOTP n = 100000)).card = 4773 := by
    rw [card_generateOTP_preimage 100000 (by norm_num) (by norm_num)]
    norm_num
  have h999 :
      ((Finset.range (2 ^ 32)).filter (fun n => generateOTP n = 999999)).card = 4772 := by
    rw [card_generateOTP_preimage 999999 (by norm_num) (by norm_num)]
    norm_num
  refine ⟨h100, h999, fun hu => ?_⟩
  have := hu 100000 999999 (by norm_num) (by norm_num) (by norm_num) (by norm_num)
  rw [h100, h999] at this
  exact absurd this (by norm_num)

/-- C10 (amended): every value of the random source yields a 6-digit OTP
in [100000, 999999], but the mapping is a plain modulo reduction of the
32-bit source with no rejection or other correction, so the distribution
is biased: values up to 267295 have 4773 preimages and the remaining
values 4772. -/
theorem generateOTP_range_and_bias (n v : Nat)
    (h1 : 100000 ≤ v) (h2 : v ≤ 999999) :
    (100000 ≤ generateOTP n ∧ generateOTP n ≤ 999999) ∧
    ((Finset.range (2 ^ 32)).filter (fun m => generateOTP m = v)).card
      = (if v ≤ 267295 then 4773 else 4772) := by
  constructor
  · unfold generateOTP
    omega
  · rw [card_generateOTP_preimage v h1 h2]
    rcases le_or_lt v 267295 with hv | hv
    · rw [if_pos hv]
      omega
    · rw [if_neg (by omega)]
      omega

/-- Witness for `generateOTP_range_and_bias` at `n = 0`, `v = 100000`. -/
theorem generateOTP_range_and_bias_witness :
    (100000 ≤ (100000 : Nat) ∧ (100000 : Nat) ≤ 999999) ∧
    ((100000 ≤ generateOTP 0 ∧ generateOTP 0 ≤ 999999) ∧
      ((Finset.range (2 ^ 32)).filter (fun m => generateOTP m = 100000)).card
        = (if (100000 : Nat) ≤ 267295 then 4773 else 4772)) :=
  ⟨⟨by norm_num, by norm_num⟩,
   generateOTP_range_and_bias 0 100000 (by norm_num) (by norm_num)⟩

/-! Concrete fixtures used by witnesses and counterexamples. -/

/-- A verified user row used in concrete scenarios. -/
def sampleUser : UserRow :=
  { id := 1, name := "Alice", email := "alice@example.com",
    password_hash := some "hash1", role := "USER", phone_number := none,
    profile_image_url := none, is_verified := true }

/-- The empty vault: no pending payload, no OTPs, all counters zero. -/
def emptyVault : VaultState :=
  { pending := none, otp := none, otpFailCount := 0, otpSendCount := 0,
    otpAttempts := 0, otpCooldownUntil := 0, otpLockUntil := none,
    resetOtp := none, resetAttempts := 0, resetCooldownUntil := 0,
    resetLockUntil := none, resetVerified := false }

/-- A staged registration payload used in concrete scenarios. -/
def sampleReg : RegistrationData :=
  { name := "Bob", email := "bob@example.com", password_hash := "hash2",
    role := "USER", phone_number := none, profile_image_url := none }

/-- State with a pending registration and a live verification OTP. -/
def pendingState : AuthState :=
  { users := [], tokens := [],
    vault := { emptyVault with otp := some "123456", pending := some sampleReg },
    sentEmails := [] }

/-- State with an existing user and a live password-reset OTP. -/
def resetOtpState : AuthState :=
  { users := [sampleUser], tokens := [],
    vault := { emptyVault with resetOtp := some "654321" },
    sentEmails := [] }

/-- C1, counterexample: with user `alice@example.com` present and reset OTP
"654321" stored, a first `verifyForgetPasswordOTP` presenting the correct
OTP succeeds, and a second call presenting the same OTP against the
resulting state succeeds again — the stored OTP is still in the vault — so
the claim that the matching call invalidates the OTP and that the second
call fails with NotFound/Expired is false for the password-reset purpose. -/
theorem resetOTP_second_verify_succeeds_cex :
    (verifyForgetPasswordOTP 0 "alice@example.com" "654321" resetOtpState).1
      = .ok "Password reset OTP verified successfully" ∧
    (verifyForgetPasswordOTP 0 "alice@example.com" "654321"
        (verifyForgetPasswordOTP 0 "alice@example.com" "654321" resetOtpState).2).1
      = .ok "Password reset OTP verified successfully" ∧
    ((verifyForgetPasswordOTP 0 "alice@example.com" "654321"
        resetOtpState).2).vault.resetOtp = some "654321" := by
  exact ⟨rfl, rfl, rfl⟩

/-- C1 (amended): on the email-verification path, a successful `verifyOTP`
invalidates the stored OTP and failure counter, so presenting the same OTP
again fails with NotFound; on the password-reset path, a matching
`verifyForgetPasswordOTP` only sets the verified flag, leaves the stored
OTP in place, and a second call presenting the same OTP succeeds again. -/
theorem otp_single_use_amended
    (now freshId now2 freshId2 now3 : Nat) (email c email2 c2 : String)
    (s s1 t t1 : AuthState) (r r2 : String)
    (hv : verifyOTP now freshId email c s = (.ok r, s1))
    (hw : verifyForgetPasswordOTP now3 email2 c2 t = (.ok r2, t1)) :
    (s1.vault.otp = none ∧ s1.vault.otpFailCount = 0 ∧
      (verifyOTP now2 freshId2 email c s1).1
        = .error ⟨"NOT_FOUND", "OTP expired or not found. Please request a new one."⟩) ∧
    (t1.vault.resetOtp = t.vault.resetOtp ∧
      (verifyForgetPasswordOTP now3 email2 c2 t1).1
        = .ok "Password reset OTP verified successfully") := by
  constructor
  · by_cases h5 : 5 ≤ s.vault.otpFailCount
    · simp [verifyOTP, h5] at hv
    · rcases hotp : s.vault.otp with _ | stored
      · simp [verifyOTP, h5, hotp] at hv
      · by_cases hc : c = stored
        · rcases hpend : s.vault.pending with _ | reg
          · simp [verifyOTP, h5, hotp, hc, hpend] at hv
          · by_cases hex : (s.users.any fun u => u.email = email) = true
            · simp [verifyOTP, h5, hotp, hc, hpend, hex] at hv
            · simp [verifyOTP, h5, hotp, hc, hpend, hex] at hv
              obtain ⟨-, hs1⟩ := hv
              subst hs1
              refine ⟨by simp [cleanup], by simp [cleanup], ?_⟩
              simp [verifyOTP, cleanup]
        · simp [verifyOTP, h5, hotp, hc] at hv
          split at hv <;> simp at hv
  · rcases hfind : t.users.find? (fun u => u.email = email2) with _ | u
    · simp [verifyForgetPasswordOTP, hfind] at hw
    · by_cases h5 : 5 ≤ t.vault.resetAttempts
      · simp [verifyForgetPasswordOTP, hfind, h5] at hw
      · rcases hotp : t.vault.resetOtp with _ | stored
        · simp [verifyForgetPasswordOTP, hfind, h5, hotp] at hw
        · by_cases hc : c2 = stored
          · simp [verifyForgetPasswordOTP, hfind, h5, hotp, hc] at hw
            obtain ⟨-, ht1⟩ := hw
            subst ht1
            refine ⟨rfl, ?_⟩
            simp [verifyForgetPasswordOTP, hfind, h5, hotp, hc]
          · simp [verifyForgetPasswordOTP, hfind, h5, hotp, hc] at hw
            split at hw <;> simp at hw

/-- Witness for `otp_single_use_amended`: the verification flow on
`pendingState` and the reset flow on `resetOtpState`, both presenting the
correct OTP. -/
theorem otp_single_use_amended_witness :
    (((verifyOTP 1 2 "bob@example.com" "123456" pendingState).2.vault.otp = none ∧
      (verifyOTP 1 2 "bob@example.com" "123456" pendingState).2.vault.otpFailCount = 0 ∧
      (verifyOTP 3 4 "bob@example.com" "123456"
          (verifyOTP 1 2 "bob@example.com" "123456" pendingState).2).1
        = .error ⟨"NOT_FOUND", "OTP expired or not found. Please request a new one."⟩) ∧
     ((verifyForgetPasswordOTP 5 "alice@example.com" "654321" resetOtpState).2.vault.resetOtp
        = resetOtpState.vault.resetOtp ∧
      (verifyForgetPasswordOTP 5 "alice@example.com" "654321"
          (verifyForgetPasswordOTP 5 "alice@example.com" "654321" resetOtpState).2).1
        = .ok "Password reset OTP verified successfully")) :=
  otp_single_use_amended 1 2 3 4 5 "bob@example.com" "123456" "alice@example.com" "654321"
    pendingState (verifyOTP 1 2 "bob@example.com" "123456" pendingState).2
    resetOtpState (verifyForgetPasswordOTP 5 "alice@example.com" "654321" resetOtpState).2
    "Email verified successfully. Account created!"
    "Password reset OTP verified successfully" rfl rfl

/-- State one wrong attempt short of the verification lockout. -/
def lockoutState : AuthState :=
  { users := [], tokens := [],
    vault := { emptyVault with otp := some "111111", otpFailCount := 4 },
    sentEmails := [] }

/-- State one wrong attempt short of the password-reset lockout. -/
def lockoutResetState : AuthState :=
  { users := [sampleUser], tokens := [],
    vault := { emptyVault with resetOtp := some "222222", resetAttempts := 4 },
    sentEmails := [] }

/-- C2, counterexample: from `lockoutState` (four recorded failures, stored
OTP "111111"), the fifth wrong attempt at time 0 sets the lock to
timestamp 900000; at time 1 — with the lock still in the future — a verify
call presenting the correct OTP is rejected with the NotFound/Expired
error, not with either locked-style rejection: verification consults the
failure counter, which the lockout purge reset, and never the lock
timestamp. -/
theorem post_lock_verify_not_locked_cex :
    ((verifyOTP 0 9 "bob@example.com" "000000" lockoutState).2.vault.otpLockUntil
        = some 900000 ∧ (1 : Nat) < 900000) ∧
    (verifyOTP 1 9 "bob@example.com" "111111"
        (verifyOTP 0 9 "bob@example.com" "000000" lockoutState).2).1
      = .error ⟨"NOT_FOUND", "OTP expired or not found. Please request a new one."⟩ ∧
    (⟨"NOT_FOUND", "OTP expired or not found. Please request a new one."⟩ : TRPCError)
        ≠ ⟨"TOO_MANY_REQUESTS", "Too many incorrect attempts. Account locked for 15 minutes."⟩ ∧
    (⟨"NOT_FOUND", "OTP expired or not found. Please request a new one."⟩ : TRPCError)
        ≠ ⟨"UNAUTHORIZED", "Too many incorrect attempts. Account locked for 15 minutes."⟩ := by
  refine ⟨⟨rfl, by decide⟩, rfl, by decide, by decide⟩

/-- C2 (amended): for both purposes, the fifth consecutive wrong OTP is
rejected with the locked error, sets a 15-minute lock timestamp, and
purges the stored OTP and the failure counter for the key; every
subsequent verify call — whatever candidate it presents, in particular the
correct OTP — is then rejected, but with the NotFound/Expired error (no
stored OTP), not as Locked: the verify path checks the (now reset) failure
counter, never the lock timestamp. -/
theorem fifth_wrong_otp_locks_amended
    (now freshId now2 freshId2 now3 now4 : Nat)
    (email w cA email2 w2 cB stored storedR : String)
    (s t : AuthState) (u : UserRow)
    (hfc : s.vault.otpFailCount = 4) (hotp : s.vault.otp = some stored)
    (hwne : w ≠ stored)
    (hfind : t.users.find? (fun x => x.email = email2) = some u)
    (hfcR : t.vault.resetAttempts = 4) (hotpR : t.vault.resetOtp = some storedR)
    (hwneR : w2 ≠ storedR) :
    ((verifyOTP now freshId email w s).1
        = .error ⟨"UNAUTHORIZED", "Too many incorrect attempts. Account locked for 15 minutes."⟩ ∧
     (verifyOTP now freshId email w s).2.vault.otpLockUntil = some (now + 15 * 60 * 1000) ∧
     (verifyOTP now freshId email w s).2.vault.otp = none ∧
     (verifyOTP now freshId email w s).2.vault.otpFailCount = 0 ∧
     (verifyOTP now2 freshId2 email cA (verifyOTP now freshId email w s).2).1
        = .error ⟨"NOT_FOUND", "OTP expired or not found. Please request a new one."⟩) ∧
    ((verifyForgetPasswordOTP now3 email2 w2 t).1
        = .error ⟨"UNAUTHORIZED", "Too many incorrect attempts. Account locked for 15 minutes."⟩ ∧
     (verifyForgetPasswordOTP now3 email2 w2 t).2.vault.resetLockUntil
        = some (now3 + 15 * 60 * 1000) ∧
     (verifyForgetPasswordOTP now3 email2 w2 t).2.vault.resetOtp = none ∧
     (verifyForgetPasswordOTP now3 email2 w2 t).2.vault.resetAttempts = 0 ∧
     (verifyForgetPasswordOTP now4 email2 cB (verifyForgetPasswordOTP now3 email2 w2 t).2).1
        = .error ⟨"NOT_FOUND", "OTP expired or not found. Please request a new one."⟩) := by
  have h5 : ¬ 5 ≤ s.vault.otpFailCount := by omega
  have h5R : ¬ 5 ≤ t.vault.resetAttempts := by omega
  constructor
  · refine ⟨?_, ?_, ?_, ?_, ?_⟩ <;>
      simp [verifyOTP, cleanup, hfc, hotp, hwne, h5]
  · refine ⟨?_, ?_, ?_, ?_, ?_⟩ <;>
      simp [verifyForgetPasswordOTP, cleanup, hfind, hfcR, hotpR, hwneR, h5R]

/-- Witness for `fifth_wrong_otp_locks_amended`: the lockout scenario on
`lockoutState` (verification purpose) and `lockoutResetState`
(password-reset purpose). -/
theorem fifth_wrong_otp_locks_amended_witness :
    ((verifyOTP 0 9 "bob@example.com" "000000" lockoutState).1
        = .error ⟨"UNAUTHORIZED", "Too many incorrect attempts. Account locked for 15 minutes."⟩ ∧
     (verifyOTP 0 9 "bob@example.com" "000000" lockoutState).2.vault.otpLockUntil
        = some (0 + 15 * 60 * 1000) ∧
     (verifyOTP 0 9 "bob@example.com" "000000" lockoutState).2.vault.otp = none ∧
     (verifyOTP 0 9 "bob@example.com" "000000" lockoutState).2.vault.otpFailCount = 0 ∧
     (verifyOTP 1 9 "bob@example.com" "111111"
        (verifyOTP 0 9 "bob@example.com" "000000" lockoutState).2).1
        = .error ⟨"NOT_FOUND", "OTP expired or not found. Please request a new one."⟩) ∧
    ((verifyForgetPasswordOTP 2 "alice@example.com" "999999" lockoutResetState).1
        = .error ⟨"UNAUTHORIZED", "Too many incorrect attempts. Account locked for 15 minutes."⟩ ∧
     (verifyForgetPasswordOTP 2 "alice@example.com" "999999" lockoutResetState).2.vault.resetLockUntil
        = some (2 + 15 * 60 * 1000) ∧
     (verifyForgetPasswordOTP 2 "alice@example.com" "999999" lockoutResetState).2.vault.resetOtp = none ∧
     (verifyForgetPasswordOTP 2 "alice@example.com" "999999" lockoutResetState).2.vault.resetAttempts = 0 ∧
     (verifyForgetPasswordOTP 3 "alice@example.com" "222222"
        (verifyForgetPasswordOTP 2 "alice@example.com" "999999" lockoutResetState).2).1
        = .error ⟨"NOT_FOUND", "OTP expired or not found. Please request a new one."⟩) :=
  fifth_wrong_otp_locks_amended 0 9 1 9 2 3 "bob@example.com" "000000" "111111"
    "alice@example.com" "999999" "222222" "111111" "222222"
    lockoutState lockoutResetState sampleUser rfl rfl (by decide) rfl rfl rfl (by decide)

/-- The login-then-rotate trace: `storeRefreshToken` at login under a
fresh family `f` (the `login` mutation passes no family id; `freshFamily`
is `f`), followed by repetitions of the refresh rotation exactly as the
`refreshToken` mutation performs it — `revokeRefreshTokens` on the
record's user and family, then `storeRefreshToken` under the same family
id.  `tok i` is the raw token issued at step `i` and `τ i` the clock at
step `i`. -/
def rotationTrace (hashToken : Nat → Nat) (u f : Nat) (tok τ : Nat → Nat) :
    Nat → List RefreshTokenRow
  | 0 => storeRefreshToken hashToken (τ 0) u (tok 0) none f []
  | n + 1 =>
      storeRefreshToken hashToken (τ (n + 1)) u (tok (n + 1)) (some f) f
        (revokeRefreshTokens u (some f) (rotationTrace hashToken u f tok τ n))

/-- Auxiliary closed form of the rotation trace: after `n` rotations the
table holds exactly the rows for tokens `0..n`, all but the last
revoked. -/
lemma rotationTrace_closed (hashToken : Nat → Nat) (u f : Nat) (tok τ : Nat → Nat)
    (n : Nat) :
    rotationTrace hashToken u f tok τ n
      = (List.range (n + 1)).map (fun i =>
          { userId := u, tokenHash := hashToken (tok i),
            expiresAt := τ i + REFRESH_TOKEN_EXPIRY,
            isRevoked := decide (i < n), familyId := f }) := by
  induction n with
  | zero => simp [rotationTrace, storeRefreshToken, List.range_succ]
  | succ n ih =>
      rw [rotationTrace, ih]
      simp only [revokeRefreshTokens, storeRefreshToken, List.map_map]
      conv_rhs => rw [List.range_succ, List.map_append]
      congr 1
      · apply List.map_congr_left
        intro i hi
        rw [List.mem_range] at hi
        simp [Function.comp, hi]
      · simp

/-- C3: after `N` rotations from one login, the non-revoked rows of the
table are exactly the one row of the latest token (so exactly one
non-revoked row exists for the family), and every previously issued raw
token `tok i` (`i < N`) fails `lookupValid` at every clock value.  The
digest and the token generator are injective (the SHA-256 and
`randomBytes` collaborators). -/
theorem rotation_family_invariant (hashToken tok τ : Nat → Nat)
    (u f N i now2 : Nat)
    (hinj : Function.Injective hashToken) (htok : Function.Injective tok)
    (hi : i < N) :
    (rotationTrace hashToken u f tok τ N).filter (fun r => r.isRevoked = false)
      = [{ userId := u, tokenHash := hashToken (tok N),
           expiresAt := τ N + REFRESH_TOKEN_EXPIRY, isRevoked := false,
           familyId := f }] ∧
    ((rotationTrace hashToken u f tok τ N).filter
        (fun r => r.familyId = f ∧ r.isRevoked = false)).length = 1 ∧
    lookupValid hashToken now2 (tok i) (rotationTrace hashToken u f tok τ N) = none := by
  refine ⟨?_, ?_, ?_⟩
  · rw [rotationTrace_closed, List.filter_map, List.range_succ, List.filter_append]
    have hnil : (List.range N).filter
        ((fun r : RefreshTokenRow => decide (r.isRevoked = false)) ∘ fun i =>
          ({ userId := u, tokenHash := hashToken (tok i),
             expiresAt := τ i + REFRESH_TOKEN_EXPIRY,
             isRevoked := decide (i < N), familyId := f } : RefreshTokenRow)) = [] := by
      rw [List.filter_eq_nil_iff]
      intro j hj
      rw [List.mem_range] at hj
      simp [Function.comp, hj]
    rw [hnil]
    simp [Function.comp]
  · rw [rotationTrace_closed, List.filter_map, List.range_succ, List.filter_append]
    have hnil : (List.range N).filter
        ((fun r : RefreshTokenRow => decide (r.familyId = f ∧ r.isRevoked = false)) ∘ fun i =>
          ({ userId := u, tokenHash := hashToken (tok i),
             expiresAt := τ i + REFRESH_TOKEN_EXPIRY,
             isRevoked := decide (i < N), familyId := f } : RefreshTokenRow)) = [] := by
      rw [List.filter_eq_nil_iff]
      intro j hj
      rw [List.mem_range] at hj
      simp [Function.comp, hj]
    rw [hnil]
    simp [Function.comp]
  · rw [rotationTrace_closed]
    unfold lookupValid
    apply List.find?_eq_none.mpr
    intro x hx
    rw [List.mem_map] at hx
    obtain ⟨j, hj, rfl⟩ := hx
    rw [List.mem_range] at hj
    simp only [decide_eq_true_eq, not_and]
    intro h1 h2
    exact absurd h2 (by simp [htok (hinj h1), hi])

/-- Witness for `rotation_family_invariant`: two rotations with identity
digest and token generator, then the first rotated-away token fails
`lookupValid`. -/
theorem rotation_family_invariant_witness :
    (rotationTrace (fun x => x) 0 0 (fun x => x) (fun x => x) 2).filter
        (fun r => r.isRevoked = false)
      = [{ userId := 0, tokenHash := 2, expiresAt := 2 + REFRESH_TOKEN_EXPIRY,
           isRevoked := false, familyId := 0 }] ∧
    ((rotationTrace (fun x => x) 0 0 (fun x => x) (fun x => x) 2).filter
        (fun r => r.familyId = 0 ∧ r.isRevoked = false)).length = 1 ∧
    lookupValid (fun x => x) 7 1
      (rotationTrace (fun x => x) 0 0 (fun x => x) (fun x => x) 2) = none :=
  rotation_family_invariant (fun x => x) (fun x => x) (fun x => x) 0 0 2 1 7
    (fun _ _ h => h) (fun _ _ h => h) (by decide)

/-- Auxiliary: the rate-limit helper never touches the `users` table. -/
lemma checkOTPRateLimit_users (now : Nat) (s : AuthState) :
    (checkOTPRateLimit now s).2.users = s.users := by
  unfold checkOTPRateLimit
  repeat' split
  all_goals rfl

/-- Auxiliary: `sendVerificationOtp` never touches the `users` table. -/
lemma sendVerificationOtp_users (otpGen : String) (now : Nat) (email : String)
    (s : AuthState) :
    (sendVerificationOtp otpGen now email s).2.users = s.users := by
  unfold sendVerificationOtp
  split
  · next p e s1 heq =>
      have h := checkOTPRateLimit_users now s
      rw [heq] at h
      dsimp only
      split_ifs <;> simp_all
  · next p v s1 heq =>
      have h := checkOTPRateLimit_users now s
      rw [heq] at h
      dsimp only
      split_ifs <;> simp_all

/-- Auxiliary: `register` never touches the `users` table. -/
lemma register_users (hashPassword : String → String) (otpGen : String)
    (now : Nat) (name email password role : String)
    (phone_number profile_image_url : Option String) (s : AuthState) :
    (register hashPassword otpGen now name email password role
        phone_number profile_image_url s).2.users = s.users := by
  unfold register
  split
  · rfl
  · dsimp only
    split
    · next p e s2 heq =>
        have h2 := congrArg (fun q => q.2.users) heq
        exact h2.symm.trans (sendVerificationOtp_users otpGen now email _)
    · next p v s2 heq =>
        have h2 := congrArg (fun q => q.2.users) heq
        exact h2.symm.trans (sendVerificationOtp_users otpGen now email _)

/-- C5: `register` never writes a row to the permanent user store (it only
stages the payload in the vault); a duplicate email is rejected with
CONFLICT at register time and re-checked at verify time; `verifyOTP` can
change the user store only when the presented candidate equals the stored
OTP, the staged payload is still live, no permanent row with the email
exists, and the key is not locked out; and a registration whose pending
payload has expired can never be verified (the call fails and leaves the
user store unchanged). -/
theorem no_user_row_before_verification
    (hashPassword : String → String) (otpGen : String)
    (now nowB nowC freshIdC nowD freshIdD nowE freshIdE : Nat)
    (name email password role c : String)
    (phone_number profile_image_url : Option String)
    (sA sB sC sD sE : AuthState)
    (hB : (sB.users.any fun u => u.email = email) = true)
    (hC : (verifyOTP nowC freshIdC email c sC).2.users ≠ sC.users)
    (hD : (sD.users.any fun u => u.email = email) = true)
    (hE : sE.vault.pending = none) :
    (register hashPassword otpGen now name email password role
        phone_number profile_image_url sA).2.users = sA.users ∧
    (register hashPassword otpGen nowB name email password role
        phone_number profile_image_url sB).1
      = .error ⟨"CONFLICT", "User already exists"⟩ ∧
    (sC.vault.otp = some c ∧ sC.vault.pending.isSome = true ∧
      (sC.users.any fun u => u.email = email) = false ∧
      sC.vault.otpFailCount < 5) ∧
    (verifyOTP nowD freshIdD email c sD).1.isOk = false ∧
    ((verifyOTP nowE freshIdE email c sE).1.isOk = false ∧
      (verifyOTP nowE freshIdE email c sE).2.users = sE.users) := by
  refine ⟨register_users hashPassword otpGen now name email password role
      phone_number profile_image_url sA, ?_, ?_, ?_, ?_⟩
  · simp [register, hB]
  · by_cases h5 : 5 ≤ sC.vault.otpFailCount
    · exact absurd (by simp [verifyOTP, h5, Except.isOk, Except.toBool]) hC
    · rcases hotp : sC.vault.otp with _ | stored
      · exact absurd (by simp [verifyOTP, h5, hotp, Except.isOk, Except.toBool]) hC
      · by_cases hc : c = stored
        · rcases hpend : sC.vault.pending with _ | reg
          · exact absurd (by simp [verifyOTP, h5, hotp, hc, hpend, Except.isOk, Except.toBool]) hC
          · by_cases hex : (sC.users.any fun u => u.email = email) = true
            · exact absurd (by simp [verifyOTP, h5, hotp, hc, hpend, hex]) hC
            · exact ⟨by rw [hc], rfl, by simpa using hex, by omega⟩
        · refine absurd ?_ hC
          simp [verifyOTP, h5, hotp, hc]
          split <;> simp [cleanup]
  · by_cases h5 : 5 ≤ sD.vault.otpFailCount
    · simp [verifyOTP, h5, Except.isOk, Except.toBool]
    · rcases hotp : sD.vault.otp with _ | stored
      · simp [verifyOTP, h5, hotp, Except.isOk, Except.toBool]
      · by_cases hc : c = stored
        · rcases hpend : sD.vault.pending with _ | reg
          · simp [verifyOTP, h5, hotp, hc, hpend, Except.isOk, Except.toBool]
          · simp [verifyOTP, h5, hotp, hc, hpend, hD, Except.isOk, Except.toBool]
        · by_cases hrem : 4 - sD.vault.otpFailCount = 0 <;>
            simp [verifyOTP, h5, hotp, hc, hrem, Except.isOk, Except.toBool]
  · by_cases h5 : 5 ≤ sE.vault.otpFailCount
    · constructor <;> simp [verifyOTP, h5, Except.isOk, Except.toBool]
    · rcases hotp : sE.vault.otp with _ | stored
      · constructor <;> simp [verifyOTP, h5, hotp, Except.isOk, Except.toBool]
      · by_cases hc : c = stored
        · constructor <;> simp [verifyOTP, h5, hotp, hc, hE, Except.isOk, Except.toBool]
        · constructor <;>
            (by_cases hrem : 4 - sE.vault.otpFailCount = 0 <;>
              simp [verifyOTP, h5, hotp, hc, hrem, cleanup, Except.isOk, Except.toBool])



/-- Witness for `no_user_row_before_verification`: concrete runs on
`pendingState` (fresh registration) and `resetOtpState` (existing user,
no pending payload). -/
theorem no_user_row_before_verification_witness :
    (register (fun p => p) "111111" 0 "Alice" "alice@example.com" "pw" "USER"
        none none pendingState).2.users = pendingState.users ∧
    (register (fun p => p) "111111" 1 "Alice" "alice@example.com" "pw" "USER"
        none none resetOtpState).1
      = .error ⟨"CONFLICT", "User already exists"⟩ ∧
    (pendingState.vault.otp = some "123456" ∧
      pendingState.vault.pending.isSome = true ∧
      (pendingState.users.any fun u => u.email = "alice@example.com") = false ∧
      pendingState.vault.otpFailCount < 5) ∧
    (verifyOTP 3 8 "alice@example.com" "123456" resetOtpState).1.isOk = false ∧
    ((verifyOTP 4 8 "alice@example.com" "123456" resetOtpState).1.isOk = false ∧
      (verifyOTP 4 8 "alice@example.com" "123456" resetOtpState).2.users
        = resetOtpState.users) :=
  no_user_row_before_verification (fun p => p) "111111" 0 1 2 7 3 8 4 8
    "Alice" "alice@example.com" "pw" "USER" "123456" none none
    pendingState resetOtpState pendingState resetOtpState resetOtpState
    (by decide) (by decide) (by decide) rfl


/-- A fixture for the reset flow: one user, one live refresh-token row,
reset-verified flag set. -/
def resetVerifiedState : AuthState :=
  { users := [sampleUser],
    tokens := [{ userId := 1, tokenHash := 5, expiresAt := 999999,
                 isRevoked := false, familyId := 3 }],
    vault :=
      { emptyVault with resetVerified := true, resetOtp := some "654321", resetAttempts := 1 },
    sentEmails := [] }

/-- C6: when the reset-verified flag is not set, `resetPassword` throws and
leaves the whole state — in particular the user's password hash and the
refresh-token rows — unchanged; when the flag is set and the user exists,
it returns the success acknowledgement, rewrites the user's password hash,
marks revoked every refresh-token row of that user across all families,
clears the reset-purpose vault state, and any refresh token whose ledger
rows all belong to that user fails `lookupValid` afterwards. -/
theorem resetPassword_fails_closed_and_revokes_all
    (hashPassword : String → String) (hashToken : Nat → Nat)
    (email newPassword : String) (s t : AuthState) (u x : UserRow)
    (r : RefreshTokenRow) (tkn now2 : Nat)
    (hfail : s.vault.resetVerified = false)
    (hver : t.vault.resetVerified = true)
    (hfind : t.users.find? (fun y => y.email = email) = some u)
    (hx : x ∈ (resetPassword hashPassword email newPassword t).2.users)
    (hxid : x.id = u.id)
    (hr : r ∈ (resetPassword hashPassword email newPassword t).2.tokens)
    (hrid : r.userId = u.id)
    (htok : ∀ q ∈ t.tokens, q.tokenHash = hashToken tkn → q.userId = u.id) :
    ((resetPassword hashPassword email newPassword s).1
        = .error ⟨"UNAUTHORIZED", "Password reset not verified. Please verify the OTP first."⟩ ∧
     (resetPassword hashPassword email newPassword s).2 = s) ∧
    ((resetPassword hashPassword email newPassword t).1
        = .ok "Password reset successfully" ∧
     x.password_hash = some (hashPassword newPassword) ∧
     r.isRevoked = true ∧
     (resetPassword hashPassword email newPassword t).2.vault.resetOtp = none ∧
     (resetPassword hashPassword email newPassword t).2.vault.resetAttempts = 0 ∧
     (resetPassword hashPassword email newPassword t).2.vault.resetVerified = false ∧
     lookupValid hashToken now2 tkn
        (resetPassword hashPassword email newPassword t).2.tokens = none) := by
  refine ⟨⟨by simp [resetPassword, hfail], by simp [resetPassword, hfail]⟩,
          by simp [resetPassword, hver, hfind], ?_, ?_, ?_, ?_, ?_, ?_⟩
  · simp [resetPassword, hver, hfind] at hx
    obtain ⟨y, hy, hxy⟩ := hx
    by_cases hid : y.id = u.id
    · rw [if_pos hid] at hxy
      subst hxy
      rfl
    · rw [if_neg hid] at hxy
      subst hxy
      exact absurd hxid hid
  · simp [resetPassword, hver, hfind, revokeRefreshTokens] at hr
    obtain ⟨q, hq, hrq⟩ := hr
    by_cases hid : q.userId = u.id
    · rw [if_pos hid] at hrq
      subst hrq
      rfl
    · rw [if_neg hid] at hrq
      subst hrq
      exact absurd hrid hid
  · simp [resetPassword, hver, hfind, cleanup]
  · simp [resetPassword, hver, hfind, cleanup]
  · simp [resetPassword, hver, hfind, cleanup]
  · have hred : (resetPassword hashPassword email newPassword t).2.tokens
        = t.tokens.map
            (fun q => if q.userId = u.id then { q with isRevoked := true } else q) := by
      simp [resetPassword, hver, hfind, revokeRefreshTokens]
    rw [hred]
    unfold lookupValid
    apply List.find?_eq_none.mpr
    intro rr hrr
    rw [List.mem_map] at hrr
    obtain ⟨q, hq, hrq⟩ := hrr
    by_cases hid : q.userId = u.id
    · rw [if_pos hid] at hrq
      subst hrq
      simp
    · rw [if_neg hid] at hrq
      subst hrq
      simp only [decide_eq_true_eq, not_and]
      intro h1 _
      exact absurd (htok q hq h1) hid



/-- Witness for `resetPassword_fails_closed_and_revokes_all`: the
fail-closed branch on `resetOtpState` (flag not set) and the success
branch on `resetVerifiedState`, with identity hash collaborators. -/
theorem resetPassword_fails_closed_and_revokes_all_witness :
    ((resetPassword (fun p => p) "alice@example.com" "newPw1" resetOtpState).1
        = .error ⟨"UNAUTHORIZED", "Password reset not verified. Please verify the OTP first."⟩ ∧
     (resetPassword (fun p => p) "alice@example.com" "newPw1" resetOtpState).2
        = resetOtpState) ∧
    ((resetPassword (fun p => p) "alice@example.com" "newPw1" resetVerifiedState).1
        = .ok "Password reset successfully" ∧
     ({ id := 1, name := "Alice", email := "alice@example.com",
        password_hash := some "newPw1", role := "USER", phone_number := none,
        profile_image_url := none, is_verified := true } : UserRow).password_hash
        = some "newPw1" ∧
     ({ userId := 1, tokenHash := 5, expiresAt := 999999, isRevoked := true,
        familyId := 3 } : RefreshTokenRow).isRevoked = true ∧
     (resetPassword (fun p => p) "alice@example.com" "newPw1"
        resetVerifiedState).2.vault.resetOtp = none ∧
     (resetPassword (fun p => p) "alice@example.com" "newPw1"
        resetVerifiedState).2.vault.resetAttempts = 0 ∧
     (resetPassword (fun p => p) "alice@example.com" "newPw1"
        resetVerifiedState).2.vault.resetVerified = false ∧
     lookupValid (fun z => z) 0 5
        (resetPassword (fun p => p) "alice@example.com" "newPw1"
          resetVerifiedState).2.tokens = none) :=
  resetPassword_fails_closed_and_revokes_all (fun p => p) (fun z => z)
    "alice@example.com" "newPw1" resetOtpState resetVerifiedState sampleUser
    { id := 1, name := "Alice", email := "alice@example.com",
      password_hash := some "newPw1", role := "USER", phone_number := none,
      profile_image_url := none, is_verified := true }
    { userId := 1, tokenHash := 5, expiresAt := 999999, isRevoked := true,
      familyId := 3 }
    5 0 rfl rfl (by decide) (by decide) rfl (by decide) rfl (by decide)


/-- A fixture with two live refresh-token rows in the same family
(a rotated-but-unrevoked sibling scenario). -/
def twoTokenState : AuthState :=
  { users := [sampleUser],
    tokens := [{ userId := 1, tokenHash := 5, expiresAt := 999999,
                 isRevoked := false, familyId := 3 },
               { userId := 1, tokenHash := 6, expiresAt := 999999,
                 isRevoked := false, familyId := 3 }],
    vault := emptyVault, sentEmails := [] }

/-- C7: `logout` resolves the presented token to its first ledger row and
marks revoked every row of that row's (user, family) — so a sibling token
whose ledger rows all lie in the same family fails `lookupValid`
afterwards — and a request with a missing or unresolvable token still
returns the success acknowledgement with the cookie cleared and the ledger
unchanged. -/
theorem logout_revokes_presented_family
    (hashToken : Nat → Nat) (t t2 now2 : Nat) (sA sB sC : AuthState)
    (r0 rr : RefreshTokenRow)
    (hB : sB.tokens.find? (fun q => q.tokenHash = hashToken t) = none)
    (hC : sC.tokens.find? (fun q => q.tokenHash = hashToken t) = some r0)
    (hrr : rr ∈ (logout hashToken (some t) sC).2.tokens)
    (hid : rr.userId = r0.userId) (hfam : rr.familyId = r0.familyId)
    (hsib : ∀ q ∈ sC.tokens, q.tokenHash = hashToken t2 →
        q.userId = r0.userId ∧ q.familyId = r0.familyId) :
    logout hashToken none sA = (("Logged out successfully", true), sA) ∧
    logout hashToken (some t) sB = (("Logged out successfully", true), sB) ∧
    (logout hashToken (some t) sC).1 = ("Logged out successfully", true) ∧
    rr.isRevoked = true ∧
    lookupValid hashToken now2 t2 (logout hashToken (some t) sC).2.tokens = none := by
  refine ⟨rfl, by simp [logout, hB], by simp [logout, hC], ?_, ?_⟩
  · simp [logout, hC, revokeRefreshTokens] at hrr
    obtain ⟨q, hq, hrq⟩ := hrr
    by_cases hqc : q.userId = r0.userId ∧ q.familyId = r0.familyId
    · rw [if_pos hqc] at hrq
      subst hrq
      rfl
    · rw [if_neg hqc] at hrq
      subst hrq
      exact absurd ⟨hid, hfam⟩ hqc
  · have hred : (logout hashToken (some t) sC).2.tokens
        = sC.tokens.map (fun q =>
            if q.userId = r0.userId ∧ q.familyId = r0.familyId
            then { q with isRevoked := true } else q) := by
      simp [logout, hC, revokeRefreshTokens]
    rw [hred]
    unfold lookupValid
    apply List.find?_eq_none.mpr
    intro x hx
    rw [List.mem_map] at hx
    obtain ⟨q, hq, hqx⟩ := hx
    by_cases hqc : q.userId = r0.userId ∧ q.familyId = r0.familyId
    · rw [if_pos hqc] at hqx
      subst hqx
      simp
    · rw [if_neg hqc] at hqx
      subst hqx
      simp only [decide_eq_true_eq, not_and]
      intro h1 _
      exact absurd (hsib q hq h1) hqc



/-- Witness for `logout_revokes_presented_family`: logging out with token 5
on `twoTokenState` also invalidates the sibling token 6 in family 3;
missing and unknown cookies return the acknowledgement unchanged. -/
theorem logout_revokes_presented_family_witness :
    logout (fun z => z) none pendingState
      = (("Logged out successfully", true), pendingState) ∧
    logout (fun z => z) (some 5) resetOtpState
      = (("Logged out successfully", true), resetOtpState) ∧
    (logout (fun z => z) (some 5) twoTokenState).1
      = ("Logged out successfully", true) ∧
    ({ userId := 1, tokenHash := 6, expiresAt := 999999, isRevoked := true,
       familyId := 3 } : RefreshTokenRow).isRevoked = true ∧
    lookupValid (fun z => z) 7 6 (logout (fun z => z) (some 5) twoTokenState).2.tokens
      = none :=
  logout_revokes_presented_family (fun z => z) 5 6 7
    pendingState resetOtpState twoTokenState
    { userId := 1, tokenHash := 5, expiresAt := 999999, isRevoked := false,
      familyId := 3 }
    { userId := 1, tokenHash := 6, expiresAt := 999999, isRevoked := true,
      familyId := 3 }
    (by decide) (by decide) (by decide) rfl rfl (by decide)


/-- A fixture whose ledger holds a revoked row (hash 5) and an expired row
(hash 6, expiry 10). -/
def staleTokenState : AuthState :=
  { users := [sampleUser],
    tokens := [{ userId := 1, tokenHash := 5, expiresAt := 999999,
                 isRevoked := true, familyId := 3 },
               { userId := 1, tokenHash := 6, expiresAt := 10,
                 isRevoked := false, familyId := 3 }],
    vault := emptyVault, sentEmails := [] }

/-- C8, counterexample: at clock 100 on `staleTokenState`, the
unknown-token, revoked-token and expired-token calls all fail with the
identical error (UNAUTHORIZED, "Invalid refresh token"), but the
missing-cookie call fails with (UNAUTHORIZED, "No refresh token") — a
different message, so the failure is not identical across all four cases
as claimed. -/
theorem refresh_missing_cookie_distinct_error_cex :
    (refreshToken (fun z => z) 100 none 50 staleTokenState).1
      = .error ⟨"UNAUTHORIZED", "No refresh token"⟩ ∧
    (refreshToken (fun z => z) 100 (some 7) 50 staleTokenState).1
      = .error ⟨"UNAUTHORIZED", "Invalid refresh token"⟩ ∧
    (refreshToken (fun z => z) 100 (some 5) 50 staleTokenState).1
      = .error ⟨"UNAUTHORIZED", "Invalid refresh token"⟩ ∧
    (refreshToken (fun z => z) 100 (some 6) 50 staleTokenState).1
      = .error ⟨"UNAUTHORIZED", "Invalid refresh token"⟩ ∧
    (⟨"UNAUTHORIZED", "No refresh token"⟩ : TRPCError)
      ≠ ⟨"UNAUTHORIZED", "Invalid refresh token"⟩ := by
  exact ⟨rfl, rfl, rfl, rfl, by decide⟩

/-- C8 (amended): every refresh call whose validity lookup misses — the
unknown-token, expired-token and revoked-token cases alike — fails with
the single error (UNAUTHORIZED, "Invalid refresh token") and leaves the
state unchanged; the missing-cookie case also fails closed with an
UNAUTHORIZED error and unchanged state, but its message is the distinct
"No refresh token". -/
theorem refresh_miss_generic_error_amended
    (hashToken : Nat → Nat) (now now2 tok newTok newTok2 : Nat) (s t : AuthState)
    (hmiss : lookupValid hashToken now tok s.tokens = none) :
    (refreshToken hashToken now (some tok) newTok s).1
        = .error ⟨"UNAUTHORIZED", "Invalid refresh token"⟩ ∧
    (refreshToken hashToken now (some tok) newTok s).2 = s ∧
    (refreshToken hashToken now2 none newTok2 t).1
        = .error ⟨"UNAUTHORIZED", "No refresh token"⟩ ∧
    (refreshToken hashToken now2 none newTok2 t).2 = t := by
  refine ⟨?_, ?_, rfl, rfl⟩ <;> simp [refreshToken, hmiss]

/-- Witness for `refresh_miss_generic_error_amended`: an unknown token on
`staleTokenState` and a missing cookie on `pendingState`. -/
theorem refresh_miss_generic_error_amended_witness :
    (refreshToken (fun z => z) 100 (some 7) 50 staleTokenState).1
        = .error ⟨"UNAUTHORIZED", "Invalid refresh token"⟩ ∧
    (refreshToken (fun z => z) 100 (some 7) 50 staleTokenState).2 = staleTokenState ∧
    (refreshToken (fun z => z) 4 none 51 pendingState).1
        = .error ⟨"UNAUTHORIZED", "No refresh token"⟩ ∧
    (refreshToken (fun z => z) 4 none 51 pendingState).2 = pendingState :=
  refresh_miss_generic_error_amended (fun z => z) 100 4 7 50 51
    staleTokenState pendingState (by decide)


/-- A vault in active reset cooldown (until timestamp 100), no user. -/
def coolingNoUserState : AuthState :=
  { users := [], tokens := [],
    vault := { emptyVault with resetCooldownUntil := 100 }, sentEmails := [] }

/-- The same cooling vault with the user present — differs from
`coolingNoUserState` only in the `users` table. -/
def coolingUserState : AuthState :=
  { users := [sampleUser], tokens := [],
    vault := { emptyVault with resetCooldownUntil := 100 }, sentEmails := [] }

/-- C9, counterexample: two states that differ only in whether the account
exists (identical vault, ledger, notification log), both in active reset
cooldown at clock 50: for the nonexistent account `forgotPassword` returns
the generic acknowledgement, but for the existing account the rate-limit
error thrown inside `sendPasswordResetOtp` propagates — the two responses
differ, so account existence is observable when rate limiting denies the
send. -/
theorem forgotPassword_ratelimit_distinguishes_cex :
    (forgotPassword "777777" 50 "alice@example.com" coolingNoUserState).1
      = .ok "If an account with that email exists, a reset link has been sent." ∧
    (forgotPassword "777777" 50 "alice@example.com" coolingUserState).1
      = .error ⟨"INTERNAL_SERVER_ERROR",
          "Please wait 60 seconds before requesting another OTP"⟩ ∧
    (forgotPassword "777777" 50 "alice@example.com" coolingNoUserState).1.isOk = true ∧
    (forgotPassword "777777" 50 "alice@example.com" coolingUserState).1.isOk = false ∧
    coolingUserState.vault = coolingNoUserState.vault ∧
    coolingUserState.tokens = coolingNoUserState.tokens ∧
    coolingUserState.sentEmails = coolingNoUserState.sentEmails :=
  ⟨rfl, rfl, rfl, rfl, rfl, rfl, rfl⟩

/-- C9 (amended): when no account with the email exists, `forgotPassword`
returns the generic acknowledgement with the state untouched (no OTP, no
notification); when the account exists and rate limiting permits (no
cooldown, fewer than 2 recorded attempts, no lock), it returns the same
generic acknowledgement, stores the OTP and dispatches the notification;
but when the account exists and the reset cooldown is active, the call
instead fails with the propagated rate-limit error, so the responses for
existing and nonexistent accounts can differ under rate limiting. -/
theorem forgotPassword_anti_enumeration_amended
    (otpGen : String) (now nowB nowC : Nat) (email : String)
    (sA sB sC : AuthState) (u uC : UserRow)
    (hA : sA.users.find? (fun y => y.email = email) = none)
    (hBfind : sB.users.find? (fun y => y.email = email) = some u)
    (hBcool : sB.vault.resetCooldownUntil ≤ nowB)
    (hBatt : sB.vault.resetAttempts < 2)
    (hBlock : sB.vault.resetLockUntil = none)
    (hCfind : sC.users.find? (fun y => y.email = email) = some uC)
    (hCcool : nowC < sC.vault.resetCooldownUntil) :
    forgotPassword otpGen now email sA
      = (.ok "If an account with that email exists, a reset link has been sent.", sA) ∧
    (forgotPassword otpGen nowB email sB).1
      = .ok "If an account with that email exists, a reset link has been sent." ∧
    (forgotPassword otpGen nowB email sB).2.vault.resetOtp = some otpGen ∧
    (forgotPassword otpGen nowB email sB).2.sentEmails
      = sB.sentEmails ++ [(email, otpGen)] ∧
    (forgotPassword otpGen nowC email sC).1
      = .error ⟨"INTERNAL_SERVER_ERROR",
          "Please wait 60 seconds before requesting another OTP"⟩ := by
  have h1 : ¬ nowB < sB.vault.resetCooldownUntil := by omega
  have h2 : ¬ 2 ≤ sB.vault.resetAttempts := by omega
  refine ⟨by simp [forgotPassword, hA], ?_, ?_, ?_, ?_⟩ <;>
    simp [forgotPassword, sendPasswordResetOtp, checkPasswordResetRateLimit,
          hBfind, h1, h2, hBlock, hCfind, hCcool]

/-- Witness for `forgotPassword_anti_enumeration_amended`: the three
branches at concrete states. -/
theorem forgotPassword_anti_enumeration_amended_witness :
    forgotPassword "777777" 50 "alice@example.com" coolingNoUserState
      = (.ok "If an account with that email exists, a reset link has been sent.",
         coolingNoUserState) ∧
    (forgotPassword "777777" 5 "alice@example.com" resetOtpState).1
      = .ok "If an account with that email exists, a reset link has been sent." ∧
    (forgotPassword "777777" 5 "alice@example.com" resetOtpState).2.vault.resetOtp
      = some "777777" ∧
    (forgotPassword "777777" 5 "alice@example.com" resetOtpState).2.sentEmails
      = resetOtpState.sentEmails ++ [("alice@example.com", "777777")] ∧
    (forgotPassword "777777" 50 "alice@example.com" coolingUserState).1
      = .error ⟨"INTERNAL_SERVER_ERROR",
          "Please wait 60 seconds before requesting another OTP"⟩ :=
  forgotPassword_anti_enumeration_amended "777777" 50 5 50 "alice@example.com"
    coolingNoUserState resetOtpState coolingUserState sampleUser sampleUser
    (by decide) (by decide) (by decide) (by decide) rfl (by decide) (by decide)


end Hamsoya
